import Mathlib

/-!
Verification of the stockAssessApp investment-decision engine.

The Go sources are embedded shallowly: `float64` arithmetic is idealised as
exact rational arithmetic (`ℚ`), struct mutation becomes functional record
update, and a function returning a Go `error` returns a `Bool` flag
(`true` = non-nil error).  Field and function names follow the source
(`pkg/services/calculations.go`, `pkg/services/external_api.go`,
`internal/scheduler/scheduler.go`, `pkg/models`).
-/

namespace StockAssess

/-- The `models.Stock` record: the fields read or written by the
metrics engine, the data-sourcing pipeline and the scheduler. -/
structure Stock where
  ticker : String
  companyName : String
  sector : String
  currentPrice : ℚ
  currency : String
  fairValue : ℚ
  upsidePotential : ℚ
  downsideRisk : ℚ
  probabilityPositive : ℚ
  expectedValue : ℚ
  beta : ℚ
  volatility : ℚ
  peRatio : ℚ
  epsGrowthRate : ℚ
  debtToEBITDA : ℚ
  dividendYield : ℚ
  bRatio : ℚ
  kellyFraction : ℚ
  halfKellySuggested : ℚ
  sharesOwned : ℤ
  avgPriceLocal : ℚ
  currentValueUSD : ℚ
  weight : ℚ
  unrealizedPnL : ℚ
  buyZoneMin : ℚ
  buyZoneMax : ℚ
  assessment : String
  dataSource : String
  fairValueSource : String

/-- The hard-coded Sell/Trim boundary of `CalculateMetrics`
(`else if stock.ExpectedValue > -5`). -/
def thresholdSell : ℚ := -5

/-- The assessment if-chain of `CalculateMetrics`, on the freshly computed
expected value: `EV > 7 → "Add"`, `EV > 0 → "Hold"`, `EV > -5 → "Trim"`,
otherwise `"Sell"`. -/
def assessmentOf (ev : ℚ) : String :=
  if ev > 7 then "Add"
  else if ev > 0 then "Hold"
  else if ev > thresholdSell then "Trim"
  else "Sell"

/-- `services.CalculateMetrics` (calculations.go).  Each Go assignment
becomes a `let`; a field assigned only under a condition keeps its old
value on the other branch, exactly as the Go mutation does. -/
def CalculateMetrics (s : Stock) : Stock :=
  -- Upside Potential: assigned only when CurrentPrice > 0
  let upside : ℚ :=
    if s.currentPrice > 0 then
      ((s.fairValue - s.currentPrice) / s.currentPrice) * 100
    else s.upsidePotential
  -- Expected Value: (p * Upside) + ((1 - p) * Downside)
  let ev : ℚ :=
    s.probabilityPositive * upside + (1 - s.probabilityPositive) * s.downsideRisk
  -- b ratio: assigned only when DownsideRisk ≠ 0
  let bRatio : ℚ :=
    if s.downsideRisk ≠ 0 then upside / |s.downsideRisk| else s.bRatio
  -- Kelly fraction: assigned only when BRatio > 0 (no negative clamp)
  let kelly : ℚ :=
    if bRatio > 0 then
      ((bRatio * s.probabilityPositive - (1 - s.probabilityPositive)) / bRatio) * 100
    else s.kellyFraction
  -- Half-Kelly: kelly / 2, capped at 15
  let halfKellyRaw : ℚ := kelly / 2
  let halfKelly : ℚ := if halfKellyRaw > 15 then 15 else halfKellyRaw
  -- Assessment bands
  let assessment : String := assessmentOf ev
  -- Buy zone: assigned only when FairValue > 0 and ProbabilityPositive > 0
  let buyZone : ℚ × ℚ :=
    if s.fairValue > 0 ∧ s.probabilityPositive > 0 then
      let targetEV : ℚ := 15
      let requiredUpside : ℚ :=
        (targetEV - (1 - s.probabilityPositive) * s.downsideRisk) / s.probabilityPositive
      if requiredUpside > 0 then
        let bzMax := s.fairValue / (1 + requiredUpside / 100)
        (bzMax * (90 / 100), bzMax)
      else
        (s.currentPrice * (85 / 100), s.currentPrice * (95 / 100))
    else (s.buyZoneMin, s.buyZoneMax)
  { s with
    upsidePotential := upside
    expectedValue := ev
    bRatio := bRatio
    kellyFraction := kelly
    halfKellySuggested := halfKelly
    assessment := assessment
    buyZoneMin := buyZone.1
    buyZoneMax := buyZone.2 }

/-- A concrete all-zero stock, the base point for concrete test inputs. -/
def baseStock : Stock where
  ticker := "TST"
  companyName := "Test"
  sector := "Tech"
  currentPrice := 0
  currency := "USD"
  fairValue := 0
  upsidePotential := 0
  downsideRisk := 0
  probabilityPositive := 0
  expectedValue := 0
  beta := 0
  volatility := 0
  peRatio := 0
  epsGrowthRate := 0
  debtToEBITDA := 0
  dividendYield := 0
  bRatio := 0
  kellyFraction := 0
  halfKellySuggested := 0
  sharesOwned := 0
  avgPriceLocal := 0
  currentValueUSD := 0
  weight := 0
  unrealizedPnL := 0
  buyZoneMin := 0
  buyZoneMax := 0
  assessment := ""
  dataSource := ""
  fairValueSource := ""

/-- The `PortfolioMetrics` result struct of calculations.go.  The Go
`map[string]float64` of sector weights is a total function defaulting
to `0`, matching Go map-read semantics. -/
structure PortfolioMetrics where
  totalValue : ℚ
  overallEV : ℚ
  weightedVolatility : ℚ
  sharpeRatio : ℚ
  kellyUtilization : ℚ
  sectorWeights : String → ℚ

/-- Position value in USD as computed in both loops of
`CalculatePortfolioMetrics`: `float64(SharesOwned) * CurrentPrice * fxRate`,
where a missing (zero) fx rate defaults to `1.0`. -/
def stockValueUSD (fxRates : String → ℚ) (s : Stock) : ℚ :=
  let fxRate := fxRates s.currency
  let fxRate := if fxRate = 0 then 1 else fxRate
  (s.sharesOwned : ℚ) * s.currentPrice * fxRate

/-- The first loop of `CalculatePortfolioMetrics`.  State is
`(totalValue, weightedEV, weightedVolatility, sectorWeights)`.  Note the
source computes each `weight` against the *running* `totalValue`
accumulated so far (`totalValue += valueUSD; weight := valueUSD / totalValue`),
not the final total. -/
def portfolioLoop (fxRates : String → ℚ) :
    List Stock → ℚ × ℚ × ℚ × (String → ℚ) → ℚ × ℚ × ℚ × (String → ℚ)
  | [], acc => acc
  | s :: rest, (totalValue, wEV, wVol, sec) =>
      let valueUSD := stockValueUSD fxRates s
      let totalValue' := totalValue + valueUSD
      let weight := valueUSD / totalValue'
      portfolioLoop fxRates rest
        (totalValue',
         wEV + s.expectedValue * weight,
         wVol + s.volatility * weight,
         fun c => if c = s.sector then sec c + weight * 100 else sec c)

/-- The second loop of `CalculatePortfolioMetrics` (Kelly utilization):
`weight := (valueUSD / totalValue) * 100`, summed over all stocks, against
the final `totalValue`. -/
def kellyUtilizationLoop (fxRates : String → ℚ) (totalValue : ℚ) :
    List Stock → ℚ → ℚ
  | [], acc => acc
  | s :: rest, acc =>
      let valueUSD := stockValueUSD fxRates s
      let weight := valueUSD / totalValue * 100
      kellyUtilizationLoop fxRates totalValue rest (acc + weight)

/-- `services.CalculatePortfolioMetrics` (calculations.go). -/
def CalculatePortfolioMetrics (stocks : List Stock) (fxRates : String → ℚ) :
    PortfolioMetrics :=
  let acc := portfolioLoop fxRates stocks (0, 0, 0, fun _ => 0)
  let totalValue := acc.1
  let weightedEV := acc.2.1
  let weightedVolatility := acc.2.2.1
  let sectorWeights := acc.2.2.2
  let sharpeRatio := if weightedVolatility > 0 then weightedEV / weightedVolatility else 0
  let kellyUtilization := kellyUtilizationLoop fxRates totalValue stocks 0
  { totalValue := totalValue
    overallEV := weightedEV
    weightedVolatility := weightedVolatility
    sharpeRatio := sharpeRatio
    kellyUtilization := kellyUtilization
    sectorWeights := sectorWeights }

/-- Total portfolio value `Σ shares_i × price_i × rate_i` (the spec's
`total_value`, and the value the source's first loop accumulates). -/
def portfolioTotalValue (stocks : List Stock) (fxRates : String → ℚ) : ℚ :=
  (stocks.map (stockValueUSD fxRates)).sum

/-- The per-position weights of the spec,
`weight_i = value_i / total_value × 100`, summed over all positions. -/
def sumWeights (stocks : List Stock) (fxRates : String → ℚ) : ℚ :=
  (stocks.map
    (fun s => stockValueUSD fxRates s / portfolioTotalValue stocks fxRates * 100)).sum

/-- Modelled from the spec: `weighted_ev = Σ(expected_value_i × weight_i/100)`
with `weight_i = value_i / total_value × 100`.  This is the specification's
formula, to be compared with the source's `CalculatePortfolioMetrics`. -/
def specWeightedEV (stocks : List Stock) (fxRates : String → ℚ) : ℚ :=
  (stocks.map
    (fun s => s.expectedValue *
      (stockValueUSD fxRates s / portfolioTotalValue stocks fxRates * 100) / 100)).sum

/-- `mockStockData` of external_api.go (the Unavailable fallback of
`FetchAllStockData`): zeroes the raw inputs and derived metrics, sets
`Assessment` to `"N/A"`, `DataSource` to `"None"`, `FairValueSource` to
`"Not available"`, and returns a non-nil error (modelled as `true`).
The exchange-rate-cache write and the `LastUpdated` timestamp are outside
the pure model. -/
def mockStockData (s : Stock) : Stock × Bool :=
  ({ s with
      currentPrice := 0
      fairValue := 0
      beta := 0
      volatility := 0
      peRatio := 0
      epsGrowthRate := 0
      debtToEBITDA := 0
      dividendYield := 0
      probabilityPositive := 0
      downsideRisk := 0
      upsidePotential := 0
      bRatio := 0
      expectedValue := 0
      kellyFraction := 0
      halfKellySuggested := 0
      buyZoneMin := 0
      buyZoneMax := 0
      assessment := "N/A"
      dataSource := "None"
      fairValueSource := "Not available" }, true)

/-- The provider dispatch of `FetchAllStockData` (external_api.go),
restricted to its pure no-network path: with an empty Alpha Vantage key
step 1 is skipped, and with an empty xAI key the function returns
`s.mockStockData(stock)`.  Any path that would contact the network is
`none` (outside the pure model). -/
def FetchAllStockData (alphaVantageAPIKey xaiAPIKey : String) (s : Stock) :
    Option (Stock × Bool) :=
  if alphaVantageAPIKey = "" then
    if xaiAPIKey = "" then some (mockStockData s) else none
  else none

/-- `models.PortfolioSettings`, the fields read by the scheduler's alert
evaluation. -/
structure PortfolioSettings where
  alertsEnabled : Bool
  alertThresholdEV : ℚ

/-- The settings seeded by database.go:
`AlertsEnabled: true, AlertThresholdEV: 10.0`. -/
def defaultSettings : PortfolioSettings :=
  { alertsEnabled := true, alertThresholdEV := 10 }

/-- The alert-evaluation tail of `updateStock` (scheduler.go):
`oldEV` is the expected value captured at the top of `updateStock`, `s` the
stock after refresh and `CalculateMetrics`.  Emits `ev_change` when
`AlertsEnabled && (evChange > threshold || evChange < -threshold)`, and
emits `buy_zone` when `BuyZoneMin <= CurrentPrice <= BuyZoneMax`. -/
def evaluateAlerts (settings : PortfolioSettings) (oldEV : ℚ) (s : Stock) :
    List String :=
  let evChange := s.expectedValue - oldEV
  (if settings.alertsEnabled ∧
      (evChange > settings.alertThresholdEV ∨ evChange < -settings.alertThresholdEV)
   then ["ev_change"] else []) ++
  (if s.currentPrice ≥ s.buyZoneMin ∧ s.currentPrice ≤ s.buyZoneMax
   then ["buy_zone"] else [])

/-- Spec scenario 1 input: price 100, fair value 120, p 0.65, downside −20. -/
def scenario1Stock : Stock :=
  { baseStock with
      currentPrice := 100, fairValue := 120,
      probabilityPositive := 65/100, downsideRisk := -20 }

/-- Test input whose raw Kelly formula is negative: upside 10, downside −20,
so b = 1/2 and f* = ((1/2)(1/5) − 4/5)/(1/2) × 100 = −140. -/
def kellyNegStock : Stock :=
  { baseStock with
      currentPrice := 100, fairValue := 110,
      probabilityPositive := 1/5, downsideRisk := -20 }

/-- Test input: beta 1.8, downside risk unset (zero). -/
def betaStock : Stock :=
  { baseStock with currentPrice := 100, fairValue := 120, beta := 9/5 }

/-- Test input: a stale non-zero upside with a zero current price. -/
def staleUpsideStock : Stock :=
  { baseStock with currentPrice := 0, upsidePotential := 42 }

/-- Portfolio test position: 1 share at 100 USD, expected value 10. -/
def evStockA : Stock :=
  { baseStock with
      ticker := "AAA", sharesOwned := 1, currentPrice := 100,
      expectedValue := 10 }

/-- Second portfolio test position, identical but for the ticker. -/
def evStockB : Stock :=
  { baseStock with
      ticker := "BBB", sharesOwned := 1, currentPrice := 100,
      expectedValue := 10 }

/-- An fx-rate table mapping every currency to rate 1. -/
def oneFx : String → ℚ := fun _ => 1

/-- Settings with alerts disabled and the default EV threshold 10. -/
def offSettings : PortfolioSettings :=
  { alertsEnabled := false, alertThresholdEV := 10 }

/-- Alert test input: expected value 20, buy zone [1, 2], price 0. -/
def evAlertStock : Stock :=
  { baseStock with expectedValue := 20, buyZoneMin := 1, buyZoneMax := 2 }

end StockAssess

namespace StockAssess

/-- Spec scenario 1: EV = 0.65×20 + 0.35×(−20) = 6, assessed Hold. -/
theorem scenario1_hold :
    (CalculateMetrics scenario1Stock).expectedValue = 6 ∧
    (CalculateMetrics scenario1Stock).assessment = "Hold" := by
  constructor <;>
    norm_num [CalculateMetrics, scenario1Stock, baseStock, assessmentOf, thresholdSell]

/-- The assessment if-chain characterised band by band. -/
theorem assessmentOf_spec (ev : ℚ) :
    (assessmentOf ev = "Add" ↔ 7 < ev) ∧
    (assessmentOf ev = "Hold" ↔ 0 < ev ∧ ev ≤ 7) ∧
    (assessmentOf ev = "Trim" ↔ thresholdSell < ev ∧ ev ≤ 0) ∧
    (assessmentOf ev = "Sell" ↔ ev ≤ thresholdSell) := by
  unfold assessmentOf thresholdSell
  split_ifs with h1 h2 h3 <;>
    refine ⟨?_, ?_, ?_, ?_⟩ <;> constructor <;> intro h <;>
    first
      | rfl
      | linarith
      | exact absurd h (by decide)
      | exact ⟨by linarith, by linarith⟩

/-- The assessment if-chain always lands in one of the four categories. -/
theorem assessmentOf_total (ev : ℚ) :
    assessmentOf ev = "Add" ∨ assessmentOf ev = "Hold" ∨
    assessmentOf ev = "Trim" ∨ assessmentOf ev = "Sell" := by
  unfold assessmentOf
  split_ifs <;> simp

/-- Claim C1: the assessment produced by `CalculateMetrics` is a total,
deterministic, non-overlapping partition of the computed expected value:
exactly one of Add, Hold, Trim, Sell is assigned, with Add exactly when
EV > 7, Hold exactly when 0 < EV ≤ 7, Trim exactly when
`thresholdSell` < EV ≤ 0, and Sell exactly when EV ≤ `thresholdSell`,
the code's Sell/Trim boundary being the constant −5. -/
theorem assessment_partition_of_ev (s : Stock) :
    ((CalculateMetrics s).assessment = "Add" ∨
     (CalculateMetrics s).assessment = "Hold" ∨
     (CalculateMetrics s).assessment = "Trim" ∨
     (CalculateMetrics s).assessment = "Sell") ∧
    ((CalculateMetrics s).assessment = "Add" ↔
       7 < (CalculateMetrics s).expectedValue) ∧
    ((CalculateMetrics s).assessment = "Hold" ↔
       0 < (CalculateMetrics s).expectedValue ∧
         (CalculateMetrics s).expectedValue ≤ 7) ∧
    ((CalculateMetrics s).assessment = "Trim" ↔
       thresholdSell < (CalculateMetrics s).expectedValue ∧
         (CalculateMetrics s).expectedValue ≤ 0) ∧
    ((CalculateMetrics s).assessment = "Sell" ↔
       (CalculateMetrics s).expectedValue ≤ thresholdSell) := by
  have h : (CalculateMetrics s).assessment
      = assessmentOf ((CalculateMetrics s).expectedValue) := rfl
  rw [h]
  exact ⟨assessmentOf_total _, assessmentOf_spec _⟩

/-- Claim C2 (failing input): on two 100-USD positions with expected value 10
each, `CalculatePortfolioMetrics` returns `overall_ev = 15`, because each
loop iteration divides by the *running* total accumulated so far, while the
specified weighted sum `Σ(expected_value_i × weight_i/100)` — computed here
by `specWeightedEV` — is 10; the total portfolio value 200 is positive, so
the claim's precondition holds. -/
theorem portfolio_weightedEV_running_total_bug :
    (CalculatePortfolioMetrics [evStockA, evStockB] oneFx).overallEV = 15 ∧
    specWeightedEV [evStockA, evStockB] oneFx = 10 ∧
    portfolioTotalValue [evStockA, evStockB] oneFx = 200 ∧
    (15 : ℚ) ≠ 10 := by
  refine ⟨?_, ?_, ?_, by norm_num⟩ <;>
    norm_num [CalculatePortfolioMetrics, portfolioLoop, kellyUtilizationLoop,
      stockValueUSD, specWeightedEV, portfolioTotalValue, evStockA, evStockB,
      oneFx, baseStock]

/-- Claim C3 (counterexample): for `kellyNegStock` the raw Kelly formula is
negative (−140) and `CalculateMetrics` stores that negative value in
`kelly_fraction` — it is not floored at 0. -/
theorem kelly_clamp_counterexample :
    (CalculateMetrics kellyNegStock).kellyFraction = -140 ∧
    ((1/2 : ℚ) * (1/5) - (1 - 1/5)) / (1/2) * 100 < 0 ∧
    (-140 : ℚ) ≠ 0 := by
  refine ⟨?_, by norm_num, by norm_num⟩
  norm_num [CalculateMetrics, kellyNegStock, baseStock]

/-- Claim C3 (amended): whenever the computed b_ratio is positive,
`CalculateMetrics` stores exactly the raw Kelly value
((b_ratio×p) − (1−p))/b_ratio × 100 in `kelly_fraction`, with no clamping —
negative raw values are stored as-is. -/
theorem kelly_no_clamp (s : Stock) (h : 0 < (CalculateMetrics s).bRatio) :
    (CalculateMetrics s).kellyFraction =
      ((CalculateMetrics s).bRatio * s.probabilityPositive -
        (1 - s.probabilityPositive)) / (CalculateMetrics s).bRatio * 100 := by
  simp only [CalculateMetrics] at h ⊢
  rw [if_pos h]

/-- Witness for `kelly_no_clamp` at `kellyNegStock`, whose b_ratio is 1/2. -/
theorem kelly_no_clamp_witness :
    0 < (CalculateMetrics kellyNegStock).bRatio ∧
    (CalculateMetrics kellyNegStock).kellyFraction =
      ((CalculateMetrics kellyNegStock).bRatio * kellyNegStock.probabilityPositive -
        (1 - kellyNegStock.probabilityPositive)) /
          (CalculateMetrics kellyNegStock).bRatio * 100 := by
  have hb : 0 < (CalculateMetrics kellyNegStock).bRatio := by
    norm_num [CalculateMetrics, kellyNegStock, baseStock]
  exact ⟨hb, kelly_no_clamp kellyNegStock hb⟩

/-- Claim C4 (counterexample): with beta = 1.8 and `downside_risk` unset (0),
`CalculateMetrics` leaves `downside_risk` at 0 — it is not calibrated
to −30. -/
theorem beta_calibration_counterexample :
    betaStock.beta = 9/5 ∧
    (CalculateMetrics betaStock).downsideRisk = 0 ∧ (0 : ℚ) ≠ -30 :=
  ⟨rfl, rfl, by norm_num⟩

/-- Claim C4 (amended): `CalculateMetrics` never modifies `downside_risk`,
whatever `beta` is; no beta-based calibration of the downside exists in the
computation (the calibration table appears only in the prompt text sent to
the generative provider). -/
theorem downsideRisk_unchanged (s : Stock) :
    (CalculateMetrics s).downsideRisk = s.downsideRisk := rfl

/-- Claim C5 (counterexample): with current price 0 and a stale upside of 42,
`CalculateMetrics` leaves `upside_potential` at 42 rather than resetting
it to 0. -/
theorem upside_zero_price_counterexample :
    (CalculateMetrics staleUpsideStock).upsidePotential = 42 ∧ (42 : ℚ) ≠ 0 := by
  constructor
  · norm_num [CalculateMetrics, staleUpsideStock, baseStock]
  · norm_num

/-- Claim C5 (amended): if current_price > 0 then `upside_potential` equals
(fair_value − current_price)/current_price × 100 exactly; if
current_price ≤ 0 the field is left unchanged (not set to 0). -/
theorem upside_potential_formula (s : Stock) :
    (CalculateMetrics s).upsidePotential =
      if s.currentPrice > 0 then
        ((s.fairValue - s.currentPrice) / s.currentPrice) * 100
      else s.upsidePotential := rfl

/-- Claim C6 (counterexample): for `kellyNegStock` the Kelly fraction is
−140, so `half_kelly_suggested` is −70, violating 0 ≤ half_kelly. -/
theorem half_kelly_negative_counterexample :
    (CalculateMetrics kellyNegStock).halfKellySuggested = -70 ∧
    ¬((0 : ℚ) ≤ -70) := by
  constructor
  · norm_num [CalculateMetrics, kellyNegStock, baseStock]
  · norm_num

/-- Claim C6 (amended): `half_kelly_suggested` equals
min(kelly_fraction/2, 15) and hence is always ≤ 15, but it is not bounded
below by 0: it is negative whenever `kelly_fraction` is. -/
theorem half_kelly_min_formula (s : Stock) :
    (CalculateMetrics s).halfKellySuggested =
      min ((CalculateMetrics s).kellyFraction / 2) 15 ∧
    (CalculateMetrics s).halfKellySuggested ≤ 15 := by
  have h : (CalculateMetrics s).halfKellySuggested =
      if (CalculateMetrics s).kellyFraction / 2 > 15 then 15
      else (CalculateMetrics s).kellyFraction / 2 := rfl
  rw [h]
  split_ifs with hgt
  · exact ⟨(min_eq_right (le_of_lt hgt)).symm, le_refl _⟩
  · exact ⟨(min_eq_left (not_lt.mp hgt)).symm, not_lt.mp hgt⟩

/-- Claim C7 (counterexample): the no-provider fallback sets the assessment
sentinel to `"N/A"`, which is not the string `"Unavailable"` the claim
names. -/
theorem unavailable_sentinel_counterexample :
    (mockStockData baseStock).1.assessment = "N/A" ∧
    ("N/A" : String) ≠ "Unavailable" :=
  ⟨rfl, by decide⟩

/-- Claim C7 (amended): with neither provider configured, `FetchAllStockData`
takes the `mockStockData` fallback, which zeroes every raw and derived
numeric field, sets the assessment to the distinct sentinel `"N/A"` (not a
computed Sell), sets `data_source` to `"None"`, and returns a non-nil
error. -/
theorem no_provider_fallback (s : Stock) :
    FetchAllStockData "" "" s = some (mockStockData s) ∧
    (mockStockData s).2 = true ∧
    (mockStockData s).1.currentPrice = 0 ∧
    (mockStockData s).1.fairValue = 0 ∧
    (mockStockData s).1.beta = 0 ∧
    (mockStockData s).1.volatility = 0 ∧
    (mockStockData s).1.peRatio = 0 ∧
    (mockStockData s).1.epsGrowthRate = 0 ∧
    (mockStockData s).1.debtToEBITDA = 0 ∧
    (mockStockData s).1.dividendYield = 0 ∧
    (mockStockData s).1.probabilityPositive = 0 ∧
    (mockStockData s).1.downsideRisk = 0 ∧
    (mockStockData s).1.upsidePotential = 0 ∧
    (mockStockData s).1.bRatio = 0 ∧
    (mockStockData s).1.expectedValue = 0 ∧
    (mockStockData s).1.kellyFraction = 0 ∧
    (mockStockData s).1.halfKellySuggested = 0 ∧
    (mockStockData s).1.buyZoneMin = 0 ∧
    (mockStockData s).1.buyZoneMax = 0 ∧
    (mockStockData s).1.assessment = "N/A" ∧
    (mockStockData s).1.dataSource = "None" :=
  ⟨rfl, rfl, rfl, rfl, rfl, rfl, rfl, rfl, rfl, rfl, rfl, rfl, rfl, rfl, rfl,
   rfl, rfl, rfl, rfl, rfl, rfl⟩

/-- The first portfolio loop accumulates exactly the sum of position
values into its `totalValue` component. -/
theorem portfolioLoop_fst (fxRates : String → ℚ) (l : List Stock)
    (acc : ℚ × ℚ × ℚ × (String → ℚ)) :
    (portfolioLoop fxRates l acc).1 = acc.1 + (l.map (stockValueUSD fxRates)).sum := by
  induction l generalizing acc with
  | nil => simp [portfolioLoop]
  | cons s rest ih =>
      obtain ⟨t, ev, vol, sec⟩ := acc
      simp only [portfolioLoop, ih, List.map_cons, List.sum_cons]
      ring

/-- The Kelly-utilization loop is the sum of per-position weights. -/
theorem kellyUtilizationLoop_eq (fxRates : String → ℚ) (totalValue : ℚ)
    (l : List Stock) (acc : ℚ) :
    kellyUtilizationLoop fxRates totalValue l acc =
      acc + (l.map (fun s => stockValueUSD fxRates s / totalValue * 100)).sum := by
  induction l generalizing acc with
  | nil => simp [kellyUtilizationLoop]
  | cons s rest ih =>
      simp only [kellyUtilizationLoop, ih, List.map_cons, List.sum_cons]
      ring

/-- Dividing each summand by a common total and scaling commutes with the
list sum. -/
theorem sum_map_div_mul (v : Stock → ℚ) (T : ℚ) (l : List Stock) :
    (l.map (fun s => v s / T * 100)).sum = (l.map v).sum / T * 100 := by
  induction l with
  | nil => simp
  | cons s rest ih =>
      simp only [List.map_cons, List.sum_cons, ih]
      ring

/-- Claim C8: whenever the total portfolio value is positive, the position
weights `value_i / total × 100` sum to 100 (so certainly within the 1e-6
tolerance), and the `kelly_utilization` field returned by
`CalculatePortfolioMetrics` equals exactly that sum of weights. -/
theorem kelly_utilization_sums_to_100 (stocks : List Stock)
    (fxRates : String → ℚ) (h : 0 < portfolioTotalValue stocks fxRates) :
    (CalculatePortfolioMetrics stocks fxRates).kellyUtilization =
      sumWeights stocks fxRates ∧
    |sumWeights stocks fxRates - 100| ≤ 1 / 1000000 := by
  have hsum : sumWeights stocks fxRates = 100 := by
    unfold sumWeights
    rw [sum_map_div_mul (stockValueUSD fxRates) (portfolioTotalValue stocks fxRates) stocks]
    rw [show (stocks.map (stockValueUSD fxRates)).sum
          = portfolioTotalValue stocks fxRates from rfl]
    rw [div_self (ne_of_gt h)]
    norm_num
  constructor
  · have hk : (CalculatePortfolioMetrics stocks fxRates).kellyUtilization =
        kellyUtilizationLoop fxRates
          (portfolioLoop fxRates stocks (0, 0, 0, fun _ => 0)).1 stocks 0 := rfl
    rw [hk, portfolioLoop_fst]
    simp only [zero_add]
    rw [kellyUtilizationLoop_eq, zero_add]
    rfl
  · rw [hsum]; norm_num

/-- Witness for `kelly_utilization_sums_to_100` on a one-position portfolio
of value 100. -/
theorem kelly_utilization_sums_to_100_witness :
    0 < portfolioTotalValue [evStockA] oneFx ∧
    ((CalculatePortfolioMetrics [evStockA] oneFx).kellyUtilization =
       sumWeights [evStockA] oneFx ∧
     |sumWeights [evStockA] oneFx - 100| ≤ 1 / 1000000) := by
  have hpos : 0 < portfolioTotalValue [evStockA] oneFx := by
    norm_num [portfolioTotalValue, stockValueUSD, evStockA, oneFx, baseStock]
  exact ⟨hpos, kelly_utilization_sums_to_100 [evStockA] oneFx hpos⟩

/-- Claim C9 (counterexample): with alerts disabled and the default
threshold 10, a refresh whose expected value moved from 0 to 20 — a delta
whose absolute value exceeds the threshold — emits no alert at all, so
`ev_change` emission is not characterised by the EV delta alone. -/
theorem ev_alert_gating_counterexample :
    evaluateAlerts offSettings 0 evAlertStock = [] ∧
    offSettings.alertThresholdEV < |evAlertStock.expectedValue - 0| := by
  constructor
  · norm_num [evaluateAlerts, offSettings, evAlertStock, baseStock]
  · norm_num [offSettings, evAlertStock, baseStock]

/-- Membership in a one-element conditional list. -/
theorem mem_ite_singleton (c : Prop) [Decidable c] (y a : String) :
    y ∈ (if c then [a] else ([] : List String)) ↔ c ∧ y = a := by
  split_ifs with h <;> simp [h]

/-- Claim C9 (amended): on a scheduled per-position refresh an `ev_change`
alert is emitted exactly when alerts are enabled *and* the absolute EV delta
exceeds the configured threshold, while a `buy_zone` alert is emitted
exactly when the current price lies in the closed interval
[buy_zone_min, buy_zone_max], independent of the alerts-enabled flag. -/
theorem alert_emission_conditions (settings : PortfolioSettings) (oldEV : ℚ)
    (s : Stock) :
    ("ev_change" ∈ evaluateAlerts settings oldEV s ↔
      (settings.alertsEnabled = true ∧
        settings.alertThresholdEV < |s.expectedValue - oldEV|)) ∧
    ("buy_zone" ∈ evaluateAlerts settings oldEV s ↔
      (s.buyZoneMin ≤ s.currentPrice ∧ s.currentPrice ≤ s.buyZoneMax)) := by
  have hne : ("ev_change" : String) ≠ "buy_zone" := by decide
  have hne2 : ("buy_zone" : String) ≠ "ev_change" := by decide
  have habs : settings.alertThresholdEV < |s.expectedValue - oldEV| ↔
      (s.expectedValue - oldEV > settings.alertThresholdEV ∨
       s.expectedValue - oldEV < -settings.alertThresholdEV) := by
    rcases abs_cases (s.expectedValue - oldEV) with ⟨he, hsgn⟩ | ⟨he, hsgn⟩ <;>
      rw [he] <;> constructor <;> intro hx
    · exact Or.inl hx
    · rcases hx with hx | hx <;> linarith
    · right; linarith
    · rcases hx with hx | hx <;> linarith
  constructor
  · simp only [evaluateAlerts, List.mem_append, mem_ite_singleton]
    simp [hne, habs]
  · simp only [evaluateAlerts, List.mem_append, mem_ite_singleton]
    simp [hne2, ge_iff_le]

/-- Claim C10: `CalculateMetrics` writes only the derived metric fields and
leaves every other field — the raw inputs current_price, fair_value,
probability_positive, downside_risk, beta, volatility, the identity fields,
the sizing fields and the provenance fields — unchanged. -/
theorem calculateMetrics_frame (s : Stock) :
    (CalculateMetrics s).ticker = s.ticker ∧
    (CalculateMetrics s).companyName = s.companyName ∧
    (CalculateMetrics s).sector = s.sector ∧
    (CalculateMetrics s).currentPrice = s.currentPrice ∧
    (CalculateMetrics s).currency = s.currency ∧
    (CalculateMetrics s).fairValue = s.fairValue ∧
    (CalculateMetrics s).downsideRisk = s.downsideRisk ∧
    (CalculateMetrics s).probabilityPositive = s.probabilityPositive ∧
    (CalculateMetrics s).beta = s.beta ∧
    (CalculateMetrics s).volatility = s.volatility ∧
    (CalculateMetrics s).peRatio = s.peRatio ∧
    (CalculateMetrics s).epsGrowthRate = s.epsGrowthRate ∧
    (CalculateMetrics s).debtToEBITDA = s.debtToEBITDA ∧
    (CalculateMetrics s).dividendYield = s.dividendYield ∧
    (CalculateMetrics s).sharesOwned = s.sharesOwned ∧
    (CalculateMetrics s).avgPriceLocal = s.avgPriceLocal ∧
    (CalculateMetrics s).currentValueUSD = s.currentValueUSD ∧
    (CalculateMetrics s).weight = s.weight ∧
    (CalculateMetrics s).unrealizedPnL = s.unrealizedPnL ∧
    (CalculateMetrics s).dataSource = s.dataSource ∧
    (CalculateMetrics s).fairValueSource = s.fairValueSource :=
  ⟨rfl, rfl, rfl, rfl, rfl, rfl, rfl, rfl, rfl, rfl, rfl, rfl, rfl, rfl, rfl,
   rfl, rfl, rfl, rfl, rfl, rfl⟩

end StockAssess
